import Mathlib

/-!
Verification of the CV-generation core: the extraction-and-selection pipeline
of `cv_data_extractor.py`, `profile_loader.py` and `template_renderer.py`.

The master record is an untyped, deeply nested JSON tree in the source.  We
embed it shallowly: every optional key becomes an `Option` field (`none` =
key absent), and Python's `d.get(k, default)` becomes `(field).getD default`.
Python dictionaries built by repeated assignment (the competency and category
lookups) are embedded as functions `String → Option _` updated left to right,
so that a later assignment to the same key overwrites an earlier one, exactly
as in CPython.  External collaborators (the docxtpl template object and its
rich-text hyperlinks) are embedded as inert records carrying the data the
core hands them.
-/

/-! ## Source data model (`master_cv.json` tree) -/

/-- One element of `basics.profiles`. -/
structure ProfileLink where
  network : Option String
  url : Option String
  deriving Repr, DecidableEq

/-- The `basics.location` subtree. -/
structure Location where
  address : Option String
  postalCode : Option String
  city : Option String
  country : Option String
  deriving Repr, DecidableEq

/-- The `basics` subtree. -/
structure Basics where
  name : Option String
  phone : Option String
  email : Option String
  location : Option Location
  profiles : Option (List ProfileLink)
  deriving Repr, DecidableEq

/-- The `meta._personal` subtree. -/
structure Personal where
  nationality : Option String
  birth_date : Option String
  marital_status : Option String
  children : Option Int
  deriving Repr, DecidableEq

/-- The `meta` subtree; the Python key is `_personal`. -/
structure Meta where
  personal : Option Personal
  deriving Repr, DecidableEq

/-- The `summaries` subtree; the Python key read is `default`. -/
structure Summaries where
  default : Option String
  deriving Repr, DecidableEq

/-- One element of a work entry's `highlights` list. -/
structure HighlightSrc where
  text : Option String
  deriving Repr, DecidableEq

/-- One element of the `work` list. -/
structure WorkSrc where
  company : Option String
  title : Option String
  location : Option String
  startDate : Option String
  endDate : Option String
  highlights : Option (List HighlightSrc)
  isEarlierExperience : Option Bool
  earlierExperienceGroup : Option String
  deriving Repr, DecidableEq

/-- One element of the `education` list. -/
structure EducationSrc where
  institution : Option String
  studyType : Option String
  area : Option String
  endDate : Option String
  deriving Repr, DecidableEq

/-- One element of the `volunteer` list. -/
structure VolunteerSrc where
  organization : Option String
  title : Option String
  position : Option String
  startDate : Option String
  endDate : Option String
  summary : Option String
  highlights : Option (List String)
  deriving Repr, DecidableEq

/-- One element of `competencies.database`. -/
structure CompetencyRecord where
  id : Option String
  name : Option String
  categoryId : Option String
  deriving Repr, DecidableEq

/-- One element of `competencies.categories`. -/
structure CategoryRecord where
  id : Option String
  name : Option String
  deriving Repr, DecidableEq

/-- The `competencies.standardSet` subtree. -/
structure StandardSet where
  competencyIds : Option (List String)
  deriving Repr, DecidableEq

/-- The `competencies` subtree. -/
structure CompetenciesSrc where
  database : Option (List CompetencyRecord)
  categories : Option (List CategoryRecord)
  standardSet : Option StandardSet
  deriving Repr, DecidableEq

/-- One element of the `languages` list. -/
structure LanguageSrc where
  language : Option String
  fluency : Option String
  certificationLevel : Option String
  deriving Repr, DecidableEq

/-- The whole master CV tree (`MasterRecord`); every subtree is optional. -/
structure MasterRecord where
  basics : Option Basics
  meta : Option Meta
  summaries : Option Summaries
  work : Option (List WorkSrc)
  education : Option (List EducationSrc)
  volunteer : Option (List VolunteerSrc)
  competencies : Option CompetenciesSrc
  languages : Option (List LanguageSrc)
  deriving Repr, DecidableEq

/-- A master record with every key absent. -/
def emptyMaster : MasterRecord :=
  ⟨none, none, none, none, none, none, none, none⟩

/-! ## Extracted (output) data model -/

/-- Return value of `extract_header_data`. -/
structure HeaderData where
  name : String
  address : String
  postalCode : String
  city : String
  country : String
  phone : String
  email : String
  linkedin_url : String
  nationality : String
  birth_date : String
  marital_status : String
  children : Int
  deriving Repr, DecidableEq

/-- One extracted work position.  The Python dict gains the key
`earlierExperienceGroup` only on the earlier-experience branch, so that
field is an `Option` here (`none` = key absent). -/
structure Position where
  company : String
  title : String
  location : String
  startDate : String
  endDate : String
  highlights : List String
  earlierExperienceGroup : Option String
  deriving Repr, DecidableEq

/-- One extracted education entry. -/
structure EducationEntry where
  institution : String
  studyType : String
  area : String
  endDate : String
  deriving Repr, DecidableEq

/-- One extracted volunteer entry. -/
structure VolunteerEntry where
  organization : String
  title : String
  startDate : String
  endDate : String
  summary : String
  highlights : List String
  deriving Repr, DecidableEq

/-- One extracted competency entry. -/
structure CompetencyEntry where
  name : String
  category : String
  deriving Repr, DecidableEq

/-- One extracted language entry. -/
structure LanguageEntry where
  language : String
  fluency : String
  certificationLevel : String
  deriving Repr, DecidableEq

/-! ## `cv_data_extractor.py`: extraction functions -/

/-- Python's `str.lower()`, embedded as the per-character case mapping on
the underlying character list. -/
def lowerStr (s : String) : String := ⟨s.data.map Char.toLower⟩

/-- The `for profile in profiles: if ... break` loop of `extract_header_data`
(lines 70–75): the URL of the first profile whose lowercased network name is
`"linkedin"`, else `""`. -/
def findLinkedIn : List ProfileLink → String
  | [] => ""
  | p :: ps =>
    if lowerStr (p.network.getD "") = "linkedin" then p.url.getD ""
    else findLinkedIn ps

/-- `extract_header_data` (cv_data_extractor.py, lines 43–94). -/
def extract_header_data (cv_data : MasterRecord) : HeaderData :=
  let basics := cv_data.basics.getD ⟨none, none, none, none, none⟩
  let location := basics.location.getD ⟨none, none, none, none⟩
  let linkedin_url := findLinkedIn (basics.profiles.getD [])
  let meta := cv_data.meta.getD ⟨none⟩
  let personal := meta.personal.getD ⟨none, none, none, none⟩
  { name := basics.name.getD ""
    address := location.address.getD ""
    postalCode := location.postalCode.getD ""
    city := location.city.getD ""
    country := location.country.getD ""
    phone := basics.phone.getD ""
    email := basics.email.getD ""
    linkedin_url := linkedin_url
    nationality := personal.nationality.getD ""
    birth_date := personal.birth_date.getD ""
    marital_status := personal.marital_status.getD ""
    children := personal.children.getD 0 }

/-- `extract_summary_data` (lines 97–108). -/
def extract_summary_data (cv_data : MasterRecord) : String :=
  let summaries := cv_data.summaries.getD ⟨none⟩
  summaries.default.getD ""

/-- The `position` dict built for every work entry (lines 137–144); the
`earlierExperienceGroup` key is not yet present. -/
def projPosition (entry : WorkSrc) : Position :=
  { company := entry.company.getD ""
    title := entry.title.getD ""
    location := entry.location.getD ""
    startDate := entry.startDate.getD ""
    endDate := entry.endDate.getD ""
    highlights := (entry.highlights.getD []).map (fun h => h.text.getD "")
    earlierExperienceGroup := none }

/-- The `for entry in work_entries` loop of `extract_work_data`
(lines 136–150), returning `(main_work, earlier_work)`. -/
def workSplit : List WorkSrc → List Position × List Position
  | [] => ([], [])
  | entry :: rest =>
    let tailSplit := workSplit rest
    if entry.isEarlierExperience.getD false then
      (tailSplit.1,
       { projPosition entry with
         earlierExperienceGroup := some (entry.earlierExperienceGroup.getD "") }
         :: tailSplit.2)
    else
      (projPosition entry :: tailSplit.1, tailSplit.2)

/-- `extract_work_data` (lines 111–152). -/
def extract_work_data (cv_data : MasterRecord) : List Position × List Position :=
  workSplit (cv_data.work.getD [])

/-- `extract_education_data` (lines 155–180). -/
def extract_education_data (cv_data : MasterRecord) : List EducationEntry :=
  (cv_data.education.getD []).map fun entry =>
    { institution := entry.institution.getD ""
      studyType := entry.studyType.getD ""
      area := entry.area.getD ""
      endDate := entry.endDate.getD "" }

/-- The loop body of `extract_volunteer_data` (lines 202–212).  Python's
`entry.get('title', '') or entry.get('position', '')` yields the `title`
string when it is non-empty (truthy), else the `position` string. -/
def projVolunteer (entry : VolunteerSrc) : VolunteerEntry :=
  let title :=
    if entry.title.getD "" = "" then entry.position.getD ""
    else entry.title.getD ""
  { organization := entry.organization.getD ""
    title := title
    startDate := entry.startDate.getD ""
    endDate := entry.endDate.getD ""
    summary := entry.summary.getD ""
    highlights := entry.highlights.getD [] }

/-- `extract_volunteer_data` (lines 183–214). -/
def extract_volunteer_data (cv_data : MasterRecord) : List VolunteerEntry :=
  (cv_data.volunteer.getD []).map projVolunteer

/-- The `competencies.database` list as read by `extract_competencies_data`. -/
def competencyDatabase (cv_data : MasterRecord) : List CompetencyRecord :=
  (cv_data.competencies.getD ⟨none, none, none⟩).database.getD []

/-- The `competencies.categories` list as read by `extract_competencies_data`. -/
def competencyCategories (cv_data : MasterRecord) : List CategoryRecord :=
  (cv_data.competencies.getD ⟨none, none, none⟩).categories.getD []

/-- The `competencies.standardSet.competencyIds` list as read by
`extract_competencies_data`. -/
def selectedIds (cv_data : MasterRecord) : List String :=
  (((cv_data.competencies.getD ⟨none, none, none⟩).standardSet.getD ⟨none⟩).competencyIds).getD []

/-- The value stored in the Python `comp_lookup` dict (lines 242–245). -/
structure CompVal where
  name : String
  categoryId : String
  deriving Repr, DecidableEq

/-- The `category_lookup` dict comprehension (line 236), embedded as a
left-to-right sequence of key assignments: a later category with the same id
overwrites an earlier one, as in a Python dict. -/
def category_lookup (categories : List CategoryRecord) : String → Option String :=
  categories.foldl
    (fun acc cat => fun k =>
      if k = cat.id.getD "" then some (cat.name.getD "") else acc k)
    (fun _ => none)

/-- The `comp_lookup` building loop (lines 239–245), embedded the same way:
each database record assigns `comp_lookup[comp_id]`, later records
overwriting earlier ones. -/
def comp_lookup (database : List CompetencyRecord) : String → Option CompVal :=
  database.foldl
    (fun acc comp => fun k =>
      if k = comp.id.getD "" then
        some ⟨comp.name.getD "", comp.categoryId.getD ""⟩
      else acc k)
    (fun _ => none)

/-- `extract_competencies_data` (lines 217–257): iterate `selected_ids` in
order, keep only ids present in `comp_lookup`, and resolve the category
name through `category_lookup` with default `""`. -/
def extract_competencies_data (cv_data : MasterRecord) : List CompetencyEntry :=
  let compL := comp_lookup (competencyDatabase cv_data)
  let catL := category_lookup (competencyCategories cv_data)
  (selectedIds cv_data).filterMap fun comp_id =>
    match compL comp_id with
    | some comp => some ⟨comp.name, (catL comp.categoryId).getD ""⟩
    | none => none

/-- `extract_languages_data` (lines 260–283). -/
def extract_languages_data (cv_data : MasterRecord) : List LanguageEntry :=
  (cv_data.languages.getD []).map fun entry =>
    { language := entry.language.getD ""
      fluency := entry.fluency.getD ""
      certificationLevel := entry.certificationLevel.getD "" }

/-! ## `profile_loader.py`: rendering-profile settings -/

/-- The `earlierExperienceDisplay` subtree of a rendering profile. -/
structure EarlierExperienceDisplay where
  showSection : Option Bool
  defaultMode : Option String
  deriving Repr, DecidableEq

/-- A rendering profile as read by the core (`name`, `profileId`,
`earlierExperienceDisplay`); every key is optional. -/
structure Profile where
  name : Option String
  profileId : Option String
  earlierExperienceDisplay : Option EarlierExperienceDisplay
  deriving Repr, DecidableEq

/-- Return value of `get_earlier_experience_settings`. -/
structure EarlierSettings where
  showSection : Bool
  defaultMode : String
  deriving Repr, DecidableEq

/-- `get_earlier_experience_settings` (profile_loader.py, lines 77–93). -/
def get_earlier_experience_settings (profile : Profile) : EarlierSettings :=
  let settings := profile.earlierExperienceDisplay.getD ⟨none, none⟩
  { showSection := settings.showSection.getD true
    defaultMode := settings.defaultMode.getD "detailed" }

/-! ## `docx_helpers.py`: hyperlink objects

The docxtpl `RichText` and `DocxTemplate` are external collaborators; we
embed a rich-text hyperlink as the inert record of the data the core passes
to it (display text, link target, character style), and the document handle
as a field-free token. -/

/-- Stand-in for the docxtpl `DocxTemplate` handle. -/
structure DocHandle where
  deriving Repr, DecidableEq

/-- Stand-in for a one-run docxtpl `RichText` hyperlink: display text, the
target registered via `doc.build_url_id`, and the character style. -/
structure RichText where
  text : String
  target : String
  style : String
  deriving Repr, DecidableEq

/-- `create_email_hyperlink` (docx_helpers.py, lines 15–34): the target is
the email address prefixed with `"mailto:"`. -/
def create_email_hyperlink (_doc : DocHandle) (email : String) : RichText :=
  { text := email, target := "mailto:" ++ email, style := "Hyperlink" }

/-- `create_url_hyperlink` (docx_helpers.py, lines 37–58): the URL is used
as-is as target; display text defaults to the URL. -/
def create_url_hyperlink (_doc : DocHandle) (url : String)
    (display_text : Option String := none) : RichText :=
  { text := display_text.getD url, target := url, style := "Hyperlink" }

/-! ## `template_renderer.py`: context assembly -/

/-- A context value that is either still a plain string or was replaced by a
hyperlink rich-text object. -/
inductive StrOrLink where
  | str (s : String)
  | rich (r : RichText)
  deriving Repr, DecidableEq

/-- The flat template context assembled by `prepare_template_context`.  The
Python dict gains the keys `profile_name` / `profile_id` only when a profile
is supplied, so those fields are `Option`s (`none` = key absent). -/
structure Context where
  name : String
  address : String
  postalCode : String
  city : String
  country : String
  phone : String
  email : StrOrLink
  linkedin_url : StrOrLink
  nationality : String
  birth_date : String
  marital_status : String
  children : Int
  summary : String
  work : List Position
  earlier_experiences : List Position
  earlier_experience_mode : String
  education : List EducationEntry
  volunteer : List VolunteerEntry
  competencies : List CompetencyEntry
  languages : List LanguageEntry
  profile_name : Option String
  profile_id : Option String
  deriving Repr, DecidableEq

/-- `prepare_template_context` (template_renderer.py, lines 25–94).
Python's `if email_str:` is the non-emptiness test on the extracted
string.  The `profile` argument is tested twice with `if profile:`, which
is false both for `None` and for an empty profile dict; `some p` therefore
embeds a supplied truthy (non-empty) profile dict and `none` the absent or
empty one. -/
def prepare_template_context (cv_data : MasterRecord) (doc : DocHandle)
    (profile : Option Profile := none) : Context :=
  let header := extract_header_data cv_data
  let email :=
    if header.email = "" then StrOrLink.str header.email
    else StrOrLink.rich (create_email_hyperlink doc header.email)
  let linkedin_url :=
    if header.linkedin_url = "" then StrOrLink.str header.linkedin_url
    else StrOrLink.rich (create_url_hyperlink doc header.linkedin_url)
  let workPair := extract_work_data cv_data
  let earlierPair : List Position × String :=
    match profile with
    | some p =>
      let earlier_settings := get_earlier_experience_settings p
      if earlier_settings.showSection then (workPair.2, earlier_settings.defaultMode)
      else ([], "hidden")
    | none => (workPair.2, "detailed")
  { name := header.name
    address := header.address
    postalCode := header.postalCode
    city := header.city
    country := header.country
    phone := header.phone
    email := email
    linkedin_url := linkedin_url
    nationality := header.nationality
    birth_date := header.birth_date
    marital_status := header.marital_status
    children := header.children
    summary := extract_summary_data cv_data
    work := workPair.1
    earlier_experiences := earlierPair.1
    earlier_experience_mode := earlierPair.2
    education := extract_education_data cv_data
    volunteer := extract_volunteer_data cv_data
    competencies := extract_competencies_data cv_data
    languages := extract_languages_data cv_data
    profile_name := profile.map (fun p => p.name.getD "")
    profile_id := profile.map (fun p => p.profileId.getD "") }

/-! ## Concrete inputs used by witnesses -/

/-- A document handle for concrete instantiations. -/
def aDoc : DocHandle := ⟨⟩

/-- A profile with every key absent. -/
def plainProfile : Profile := ⟨none, none, none⟩

/-- A profile whose `earlierExperienceDisplay.showSection` is `false`. -/
def hiddenProfile : Profile := ⟨none, none, some ⟨some false, some "list-only"⟩⟩

/-- A master record with one volunteer entry that has no `title` key and a
non-empty `position`. -/
def sampleVolMaster : MasterRecord :=
  { emptyMaster with
    volunteer := some [⟨some "Org", none, some "Chair", some "2020", none, none, none⟩] }

/-- A master record with one work entry whose second highlight object has no
`text` key. -/
def sampleWorkMaster : MasterRecord :=
  { emptyMaster with
    work := some [⟨some "Acme", some "Dev", none, none, none,
                   some [⟨some "Did X"⟩, ⟨none⟩], none, none⟩] }

/-- A master record with a duplicate-free competency database: records `a`
and `b`, one category `c1`, and selection order `[b, zz, a]` (`zz`
unresolved). -/
def sampleCompMaster : MasterRecord :=
  { emptyMaster with
    competencies := some
      ⟨some [⟨some "a", some "Alpha", some "c1"⟩, ⟨some "b", some "Beta", some "cX"⟩],
       some [⟨some "c1", some "Tech"⟩],
       some ⟨some ["b", "zz", "a"]⟩⟩ }

/-- A master record whose competency database has two records with id `a`
and whose categories list has two categories with id `c2`. -/
def dupCompMaster : MasterRecord :=
  { emptyMaster with
    competencies := some
      ⟨some [⟨some "a", some "First", some "c1"⟩, ⟨some "a", some "Second", some "c2"⟩],
       some [⟨some "c2", some "TierA"⟩, ⟨some "c2", some "TierB"⟩],
       some ⟨some ["a"]⟩⟩ }

/-- A master record with a non-empty email and a LinkedIn profile entry. -/
def sampleHeaderMaster : MasterRecord :=
  { emptyMaster with
    basics := some
      ⟨some "Jane", none, some "a@b.c", none,
       some [⟨some "LinkedIn", some "https://x"⟩]⟩ }

/-! ## Helper lemmas -/

/-- The work-entry loop is the order-preserving partition by the
`isEarlierExperience` flag. -/
theorem workSplit_eq_partition (ws : List WorkSrc) :
    workSplit ws =
      ((ws.filter (fun e => !e.isEarlierExperience.getD false)).map projPosition,
       (ws.filter (fun e => e.isEarlierExperience.getD false)).map
         (fun e => { projPosition e with
           earlierExperienceGroup := some (e.earlierExperienceGroup.getD "") })) := by
  induction ws with
  | nil => rfl
  | cons e rest ih =>
    cases hflag : e.isEarlierExperience.getD false <;>
      simp [workSplit, ih, List.filter_cons, hflag]

/-- The two output lists of the work split together have as many entries as
the input. -/
theorem workSplit_length (ws : List WorkSrc) :
    (workSplit ws).1.length + (workSplit ws).2.length = ws.length := by
  induction ws with
  | nil => rfl
  | cons e rest ih =>
    cases hflag : e.isEarlierExperience.getD false <;>
      simp [workSplit, hflag] <;> omega

/-- The LinkedIn loop returns the URL of the first matching profile. -/
theorem findLinkedIn_eq_find? (ps : List ProfileLink) :
    findLinkedIn ps =
      match ps.find? (fun p => lowerStr (p.network.getD "") == "linkedin") with
      | some p => p.url.getD ""
      | none => "" := by
  induction ps with
  | nil => rfl
  | cons p ps ih =>
    by_cases hc : lowerStr (p.network.getD "") = "linkedin"
    · rw [List.find?_cons_of_pos _ (by simp [hc])]
      simp [findLinkedIn, hc]
    · rw [List.find?_cons_of_neg _ (by simp [hc])]
      simp [findLinkedIn, hc, ih]

/-- `name` of the extracted header is the `basics.name` path with default `""`. -/
theorem header_name (cv : MasterRecord) :
    (extract_header_data cv).name = (cv.basics.bind Basics.name).getD "" := by
  rcases hb : cv.basics with _ | b <;> simp [extract_header_data, hb]

/-- `phone` of the extracted header is the `basics.phone` path with default `""`. -/
theorem header_phone (cv : MasterRecord) :
    (extract_header_data cv).phone = (cv.basics.bind Basics.phone).getD "" := by
  rcases hb : cv.basics with _ | b <;> simp [extract_header_data, hb]

/-- `email` of the extracted header is the `basics.email` path with default `""`. -/
theorem header_email (cv : MasterRecord) :
    (extract_header_data cv).email = (cv.basics.bind Basics.email).getD "" := by
  rcases hb : cv.basics with _ | b <;> simp [extract_header_data, hb]

/-- `address` follows the `basics.location.address` path with default `""`. -/
theorem header_address (cv : MasterRecord) :
    (extract_header_data cv).address
      = ((cv.basics.bind Basics.location).bind Location.address).getD "" := by
  rcases hb : cv.basics with _ | b
  · simp [extract_header_data, hb]
  · rcases hl : b.location with _ | l <;> simp [extract_header_data, hb, hl]

/-- `postalCode` follows the `basics.location.postalCode` path with default `""`. -/
theorem header_postalCode (cv : MasterRecord) :
    (extract_header_data cv).postalCode
      = ((cv.basics.bind Basics.location).bind Location.postalCode).getD "" := by
  rcases hb : cv.basics with _ | b
  · simp [extract_header_data, hb]
  · rcases hl : b.location with _ | l <;> simp [extract_header_data, hb, hl]

/-- `city` follows the `basics.location.city` path with default `""`. -/
theorem header_city (cv : MasterRecord) :
    (extract_header_data cv).city
      = ((cv.basics.bind Basics.location).bind Location.city).getD "" := by
  rcases hb : cv.basics with _ | b
  · simp [extract_header_data, hb]
  · rcases hl : b.location with _ | l <;> simp [extract_header_data, hb, hl]

/-- `country` follows the `basics.location.country` path with default `""`. -/
theorem header_country (cv : MasterRecord) :
    (extract_header_data cv).country
      = ((cv.basics.bind Basics.location).bind Location.country).getD "" := by
  rcases hb : cv.basics with _ | b
  · simp [extract_header_data, hb]
  · rcases hl : b.location with _ | l <;> simp [extract_header_data, hb, hl]

/-- `linkedin_url` is the LinkedIn loop run on the `basics.profiles` path. -/
theorem header_linkedin (cv : MasterRecord) :
    (extract_header_data cv).linkedin_url
      = findLinkedIn ((cv.basics.bind Basics.profiles).getD []) := by
  rcases hb : cv.basics with _ | b <;> simp [extract_header_data, hb]

/-- `nationality` follows the `meta._personal.nationality` path with default `""`. -/
theorem header_nationality (cv : MasterRecord) :
    (extract_header_data cv).nationality
      = ((cv.meta.bind Meta.personal).bind Personal.nationality).getD "" := by
  rcases hm : cv.meta with _ | m
  · simp [extract_header_data, hm]
  · rcases hp : m.personal with _ | p <;> simp [extract_header_data, hm, hp]

/-- `birth_date` follows the `meta._personal.birth_date` path with default `""`. -/
theorem header_birth_date (cv : MasterRecord) :
    (extract_header_data cv).birth_date
      = ((cv.meta.bind Meta.personal).bind Personal.birth_date).getD "" := by
  rcases hm : cv.meta with _ | m
  · simp [extract_header_data, hm]
  · rcases hp : m.personal with _ | p <;> simp [extract_header_data, hm, hp]

/-- `marital_status` follows the `meta._personal.marital_status` path with
default `""`. -/
theorem header_marital_status (cv : MasterRecord) :
    (extract_header_data cv).marital_status
      = ((cv.meta.bind Meta.personal).bind Personal.marital_status).getD "" := by
  rcases hm : cv.meta with _ | m
  · simp [extract_header_data, hm]
  · rcases hp : m.personal with _ | p <;> simp [extract_header_data, hm, hp]

/-- `children` follows the `meta._personal.children` path with default `0`. -/
theorem header_children (cv : MasterRecord) :
    (extract_header_data cv).children
      = ((cv.meta.bind Meta.personal).bind Personal.children).getD 0 := by
  rcases hm : cv.meta with _ | m
  · simp [extract_header_data, hm]
  · rcases hp : m.personal with _ | p <;> simp [extract_header_data, hm, hp]

/-- Looking up a key in a dict built by a left-to-right sequence of
assignments finds the value of the last assignment to that key, i.e. the
first match in the reversed list. -/
theorem foldl_assign_lookup {α β : Type} (l : List α) (key : α → String) (val : α → β)
    (acc : String → Option β) (k : String) :
    (l.foldl (fun a c => fun s => if s = key c then some (val c) else a s) acc) k
      = match l.reverse.find? (fun c => key c == k) with
        | some c => some (val c)
        | none => acc k := by
  induction l generalizing acc with
  | nil => rfl
  | cons c l ih =>
    rw [List.foldl_cons, ih]
    rw [List.reverse_cons, List.find?_append]
    cases hfind : l.reverse.find? (fun c => key c == k) with
    | some c' => simp [Option.or]
    | none =>
      by_cases hk : key c = k
      · rw [List.find?_cons_of_pos _ (by simp [hk])]
        simp [Option.or, hk]
      · rw [List.find?_cons_of_neg _ (by simp [hk])]
        simp only [Option.or, List.find?_nil]
        rw [if_neg (fun h => hk h.symm)]

/-- The competency dict resolves a key to the last database record whose id
matches it (a Python dict: later assignments overwrite earlier ones). -/
theorem comp_lookup_eq_revFind (db : List CompetencyRecord) (k : String) :
    comp_lookup db k
      = (db.reverse.find? (fun c => c.id.getD "" == k)).map
          (fun c => (⟨c.name.getD "", c.categoryId.getD ""⟩ : CompVal)) := by
  unfold comp_lookup
  rw [foldl_assign_lookup db (fun c => c.id.getD "")
    (fun c => (⟨c.name.getD "", c.categoryId.getD ""⟩ : CompVal)) (fun _ => none) k]
  cases db.reverse.find? (fun c => c.id.getD "" == k) <;> simp

/-- The category dict resolves a key to the name of the last category whose
id matches it. -/
theorem category_lookup_eq_revFind (cats : List CategoryRecord) (k : String) :
    category_lookup cats k
      = (cats.reverse.find? (fun c => c.id.getD "" == k)).map
          (fun c => c.name.getD "") := by
  unfold category_lookup
  rw [foldl_assign_lookup cats (fun c => c.id.getD "")
    (fun c => c.name.getD "") (fun _ => none) k]
  cases cats.reverse.find? (fun c => c.id.getD "" == k) <;> simp

/-- When the keys of a list are pairwise distinct, the first match in the
reversed list is the first match in the list itself. -/
theorem revFind_eq_find_of_nodup {α : Type} (l : List α) (key : α → String) (k : String)
    (h : (l.map key).Nodup) :
    l.reverse.find? (fun c => key c == k) = l.find? (fun c => key c == k) := by
  induction l with
  | nil => rfl
  | cons c l ih =>
    rw [List.map_cons, List.nodup_cons] at h
    obtain ⟨hnotin, hnodup⟩ := h
    rw [List.reverse_cons, List.find?_append]
    by_cases hk : key c = k
    · have hnone : l.reverse.find? (fun c => key c == k) = none := by
        rw [List.find?_eq_none]
        intro x hx
        simp only [beq_iff_eq]
        intro hxk
        exact hnotin (hk ▸ hxk ▸ List.mem_map_of_mem key (List.mem_reverse.mp hx))
      rw [hnone, List.find?_cons_of_pos _ (by simp [hk]),
        List.find?_cons_of_pos _ (by simp [hk])]
      rfl
    · rw [List.find?_cons_of_neg _ (by simp [hk]), ih hnodup,
        List.find?_cons_of_neg _ (by simp [hk])]
      simp [Option.or]
      cases l.find? (fun c => key c == k) <;> simp

/-! ## Claim theorems -/

/-- C2: `extract_work_data` partitions the work sequence by the
`isEarlierExperience` flag: flag-true entries go to the earlier list and
carry `earlierExperienceGroup` (default `""`), all other entries go to the
main list; both lists keep the source order, and their lengths sum to the
length of the work sequence. -/
theorem extract_work_data_partition (cv : MasterRecord) :
    (extract_work_data cv).1
      = ((cv.work.getD []).filter (fun e => !e.isEarlierExperience.getD false)).map
          projPosition
  ∧ (extract_work_data cv).2
      = ((cv.work.getD []).filter (fun e => e.isEarlierExperience.getD false)).map
          (fun e => { projPosition e with
            earlierExperienceGroup := some (e.earlierExperienceGroup.getD "") })
  ∧ (extract_work_data cv).1.length + (extract_work_data cv).2.length
      = (cv.work.getD []).length := by
  refine ⟨?_, ?_, workSplit_length (cv.work.getD [])⟩
  · rw [extract_work_data, workSplit_eq_partition]
  · rw [extract_work_data, workSplit_eq_partition]

/-- C4: the extracted `linkedin_url` is the URL of the first entry of
`basics.profiles` whose network name case-insensitively equals
`"linkedin"`, and `""` when no entry matches. -/
theorem extract_header_linkedin_first (cv : MasterRecord) :
    (extract_header_data cv).linkedin_url
      = match ((cv.basics.bind Basics.profiles).getD []).find?
            (fun p => lowerStr (p.network.getD "") == "linkedin") with
        | some p => p.url.getD ""
        | none => "" := by
  rw [header_linkedin, findLinkedIn_eq_find?]

/-- C7: the extracted volunteer title is the entry's non-empty `title`,
else its non-empty `position`, else `""`. -/
theorem extract_volunteer_title_fallback (cv : MasterRecord) (i : Nat) (e : VolunteerSrc)
    (h : (cv.volunteer.getD [])[i]? = some e) :
    ∃ v, (extract_volunteer_data cv)[i]? = some v
      ∧ (e.title.getD "" ≠ "" → v.title = e.title.getD "")
      ∧ (e.title.getD "" = "" → e.position.getD "" ≠ "" → v.title = e.position.getD "")
      ∧ (e.title.getD "" = "" → e.position.getD "" = "" → v.title = "") := by
  refine ⟨projVolunteer e, ?_, ?_, ?_, ?_⟩
  · rw [extract_volunteer_data, List.getElem?_map, h]
    rfl
  · intro ht
    simp [projVolunteer, ht]
  · intro ht hp
    simp [projVolunteer, ht]
  · intro ht hp
    simp [projVolunteer, ht, hp]

/-- C7 witness: a volunteer entry with no `title` key and `position`
`"Chair"` is extracted with title `"Chair"`. -/
theorem extract_volunteer_title_fallback_witness :
    ∃ v, (extract_volunteer_data sampleVolMaster)[0]? = some v ∧ v.title = "Chair" := by
  obtain ⟨v, hv, _, hfall, _⟩ :=
    extract_volunteer_title_fallback sampleVolMaster 0
      ⟨some "Org", none, some "Chair", some "2020", none, none, none⟩ rfl
  exact ⟨v, hv, hfall rfl (by decide)⟩

/-- C8: each extracted work position keeps one highlight string per source
highlight object, in order, projecting the `text` field and contributing
`""` (not skipping) when `text` is absent. -/
theorem extract_work_highlights (cv : MasterRecord) (e : WorkSrc)
    (h : e ∈ cv.work.getD []) :
    ∃ p, (p ∈ (extract_work_data cv).1 ∨ p ∈ (extract_work_data cv).2)
      ∧ p.highlights = (e.highlights.getD []).map (fun hl => hl.text.getD "")
      ∧ p.highlights.length = (e.highlights.getD []).length
      ∧ ∀ (i : Nat) (hl : HighlightSrc), (e.highlights.getD [])[i]? = some hl →
          hl.text = none → p.highlights[i]? = some "" := by
  by_cases hflag : e.isEarlierExperience.getD false = true
  · refine ⟨{ projPosition e with
        earlierExperienceGroup := some (e.earlierExperienceGroup.getD "") },
      Or.inr ?_, rfl, by simp [projPosition], ?_⟩
    · rw [extract_work_data, workSplit_eq_partition]
      exact List.mem_map_of_mem _ (List.mem_filter.mpr ⟨h, hflag⟩)
    · intro i hl hgl hnone
      show ((e.highlights.getD []).map (fun hl => hl.text.getD ""))[i]? = some ""
      rw [List.getElem?_map, hgl]
      simp [hnone]
  · refine ⟨projPosition e, Or.inl ?_, rfl, by simp [projPosition], ?_⟩
    · rw [extract_work_data, workSplit_eq_partition]
      exact List.mem_map_of_mem _ (List.mem_filter.mpr ⟨h, by simp [hflag]⟩)
    · intro i hl hgl hnone
      show ((e.highlights.getD []).map (fun hl => hl.text.getD ""))[i]? = some ""
      rw [List.getElem?_map, hgl]
      simp [hnone]

/-- C8 witness: the work entry of `sampleWorkMaster` has highlights
`["Did X", ""]`, the second source highlight having no `text` key. -/
theorem extract_work_highlights_witness :
    ∃ p, (p ∈ (extract_work_data sampleWorkMaster).1
            ∨ p ∈ (extract_work_data sampleWorkMaster).2)
      ∧ p.highlights = ["Did X", ""]
      ∧ p.highlights[1]? = some "" := by
  obtain ⟨p, hmem, hmap, _, hidx⟩ :=
    extract_work_highlights sampleWorkMaster
      ⟨some "Acme", some "Dev", none, none, none,
       some [⟨some "Did X"⟩, ⟨none⟩], none, none⟩ (by decide)
  exact ⟨p, hmem, by simpa using hmap, hidx 1 ⟨none⟩ rfl rfl⟩

/-- C3: every extraction function is total over sparse records (in this
embedding each is a total Lean function), and every absent optional key or
sub-tree degrades to the documented default: `""` for string fields, `[]`
for list fields, `0` for `children`. -/
theorem extraction_sparse_defaults (cv : MasterRecord) :
    (cv.basics.bind Basics.name = none → (extract_header_data cv).name = "")
  ∧ ((cv.basics.bind Basics.location).bind Location.address = none →
      (extract_header_data cv).address = "")
  ∧ ((cv.basics.bind Basics.location).bind Location.postalCode = none →
      (extract_header_data cv).postalCode = "")
  ∧ ((cv.basics.bind Basics.location).bind Location.city = none →
      (extract_header_data cv).city = "")
  ∧ ((cv.basics.bind Basics.location).bind Location.country = none →
      (extract_header_data cv).country = "")
  ∧ (cv.basics.bind Basics.phone = none → (extract_header_data cv).phone = "")
  ∧ (cv.basics.bind Basics.email = none → (extract_header_data cv).email = "")
  ∧ (cv.basics.bind Basics.profiles = none → (extract_header_data cv).linkedin_url = "")
  ∧ ((cv.meta.bind Meta.personal).bind Personal.nationality = none →
      (extract_header_data cv).nationality = "")
  ∧ ((cv.meta.bind Meta.personal).bind Personal.birth_date = none →
      (extract_header_data cv).birth_date = "")
  ∧ ((cv.meta.bind Meta.personal).bind Personal.marital_status = none →
      (extract_header_data cv).marital_status = "")
  ∧ ((cv.meta.bind Meta.personal).bind Personal.children = none →
      (extract_header_data cv).children = 0)
  ∧ (cv.summaries.bind Summaries.default = none → extract_summary_data cv = "")
  ∧ (cv.work = none → extract_work_data cv = ([], []))
  ∧ (cv.education = none → extract_education_data cv = [])
  ∧ (cv.volunteer = none → extract_volunteer_data cv = [])
  ∧ ((cv.competencies.bind CompetenciesSrc.standardSet).bind StandardSet.competencyIds
        = none → extract_competencies_data cv = [])
  ∧ (cv.languages = none → extract_languages_data cv = []) := by
  refine ⟨?_, ?_, ?_, ?_, ?_, ?_, ?_, ?_, ?_, ?_, ?_, ?_, ?_, ?_, ?_, ?_, ?_, ?_⟩
  · intro h; rw [header_name, h]; rfl
  · intro h; rw [header_address, h]; rfl
  · intro h; rw [header_postalCode, h]; rfl
  · intro h; rw [header_city, h]; rfl
  · intro h; rw [header_country, h]; rfl
  · intro h; rw [header_phone, h]; rfl
  · intro h; rw [header_email, h]; rfl
  · intro h; rw [header_linkedin, h]; rfl
  · intro h; rw [header_nationality, h]; rfl
  · intro h; rw [header_birth_date, h]; rfl
  · intro h; rw [header_marital_status, h]; rfl
  · intro h; rw [header_children, h]; rfl
  · intro h
    rcases hs : cv.summaries with _ | s
    · simp [extract_summary_data, hs]
    · rw [hs] at h
      simp only [Option.some_bind] at h
      simp [extract_summary_data, hs, h]
  · intro h; simp [extract_work_data, h, workSplit]
  · intro h; simp [extract_education_data, h]
  · intro h; simp [extract_volunteer_data, h]
  · intro h
    rcases hc : cv.competencies with _ | c
    · simp [extract_competencies_data, selectedIds, hc]
    · rw [hc] at h
      simp only [Option.some_bind] at h
      rcases hst : c.standardSet with _ | st
      · simp [extract_competencies_data, selectedIds, hc, hst]
      · rw [hst] at h
        simp only [Option.some_bind] at h
        simp [extract_competencies_data, selectedIds, hc, hst, h]
  · intro h; simp [extract_languages_data, h]

/-- C3 witness: on the fully sparse master record every extractor returns
its all-default output. -/
theorem extraction_sparse_defaults_witness :
    (extract_header_data emptyMaster).name = ""
  ∧ (extract_header_data emptyMaster).address = ""
  ∧ (extract_header_data emptyMaster).children = 0
  ∧ extract_summary_data emptyMaster = ""
  ∧ extract_work_data emptyMaster = ([], [])
  ∧ extract_education_data emptyMaster = []
  ∧ extract_volunteer_data emptyMaster = []
  ∧ extract_competencies_data emptyMaster = []
  ∧ extract_languages_data emptyMaster = [] := by
  obtain ⟨h1, h2, _, _, _, _, _, _, _, _, _, h12, h13, h14, h15, h16, h17, h18⟩ :=
    extraction_sparse_defaults emptyMaster
  exact ⟨h1 rfl, h2 rfl, h12 rfl, h13 rfl, h14 rfl, h15 rfl, h16 rfl, h17 rfl, h18 rfl⟩

/-- C9: `get_earlier_experience_settings` returns `showSection = true` and
`defaultMode = "detailed"` when the `earlierExperienceDisplay` subsection is
absent (in particular for the all-absent profile), and otherwise reads the
subsection with each missing field individually replaced by its default. -/
theorem get_earlier_experience_settings_defaults (p : Profile) :
    (p.earlierExperienceDisplay = none →
        get_earlier_experience_settings p = ⟨true, "detailed"⟩)
  ∧ ∀ s : EarlierExperienceDisplay, p.earlierExperienceDisplay = some s →
      (s.showSection = none → (get_earlier_experience_settings p).showSection = true)
    ∧ (∀ b : Bool, s.showSection = some b →
        (get_earlier_experience_settings p).showSection = b)
    ∧ (s.defaultMode = none →
        (get_earlier_experience_settings p).defaultMode = "detailed")
    ∧ (∀ m : String, s.defaultMode = some m →
        (get_earlier_experience_settings p).defaultMode = m) := by
  refine ⟨?_, ?_⟩
  · intro h
    simp [get_earlier_experience_settings, h]
  · intro s hs
    refine ⟨?_, ?_, ?_, ?_⟩
    · intro h; simp [get_earlier_experience_settings, hs, h]
    · intro b h; simp [get_earlier_experience_settings, hs, h]
    · intro h; simp [get_earlier_experience_settings, hs, h]
    · intro m h; simp [get_earlier_experience_settings, hs, h]

/-- C9 witness: the all-absent profile resolves to the defaults, and a
subsection with only `showSection=false` keeps mode `"detailed"`. -/
theorem get_earlier_experience_settings_defaults_witness :
    get_earlier_experience_settings plainProfile = ⟨true, "detailed"⟩
  ∧ (get_earlier_experience_settings ⟨none, none, some ⟨some false, none⟩⟩).showSection
      = false
  ∧ (get_earlier_experience_settings ⟨none, none, some ⟨some false, none⟩⟩).defaultMode
      = "detailed" := by
  obtain ⟨habs, _⟩ := get_earlier_experience_settings_defaults plainProfile
  obtain ⟨_, hsub⟩ :=
    get_earlier_experience_settings_defaults ⟨none, none, some ⟨some false, none⟩⟩
  obtain ⟨_, hshow, hmode, _⟩ := hsub ⟨some false, none⟩ rfl
  exact ⟨habs rfl, hshow false rfl, hmode rfl⟩

/-- C1: under duplicate-free ids, `extract_competencies_data` emits one
entry per identifier of `standardSet.competencyIds` that has a matching
database record, in exactly the selection order, silently omitting
unresolved identifiers, with the category name resolved through the
record's `categoryId` and defaulting to `""`. -/
theorem extract_competencies_standard_order (cv : MasterRecord)
    (hdb : ((competencyDatabase cv).map (fun c => c.id.getD "")).Nodup)
    (hcat : ((competencyCategories cv).map (fun c => c.id.getD "")).Nodup) :
    extract_competencies_data cv
      = (selectedIds cv).filterMap (fun i =>
          ((competencyDatabase cv).find? (fun c => c.id.getD "" == i)).map (fun c =>
            { name := c.name.getD ""
              category :=
                (((competencyCategories cv).find?
                    (fun k => k.id.getD "" == c.categoryId.getD "")).map
                  (fun k => k.name.getD "")).getD "" })) := by
  simp only [extract_competencies_data]
  apply List.filterMap_congr
  intro i _
  rw [comp_lookup_eq_revFind,
    revFind_eq_find_of_nodup (competencyDatabase cv) (fun c => c.id.getD "") i hdb]
  cases hfind : (competencyDatabase cv).find? (fun c => c.id.getD "" == i) with
  | none => rfl
  | some c =>
    have hcatrw := category_lookup_eq_revFind (competencyCategories cv) (c.categoryId.getD "")
    rw [revFind_eq_find_of_nodup (competencyCategories cv) (fun k => k.id.getD "")
        (c.categoryId.getD "") hcat] at hcatrw
    simp [hcatrw]

/-- C1 witness: selection `[b, zz, a]` over the duplicate-free sample
database yields `Beta` (unknown category) then `Alpha` (category `Tech`),
with `zz` silently dropped. -/
theorem extract_competencies_standard_order_witness :
    extract_competencies_data sampleCompMaster
      = [⟨"Beta", ""⟩, ⟨"Alpha", "Tech"⟩] := by
  rw [extract_competencies_standard_order sampleCompMaster (by decide) (by decide)]
  decide

/-- C10: when the database holds several records with the same id, the
lookup used by `extract_competencies_data` resolves that id to the last
such record in database order (the first match of the reversed list), and
the emitted entry for a selected duplicate id is built from that last
record; duplicate category ids likewise resolve to the last category's
name. -/
theorem extract_competencies_duplicate_last (cv : MasterRecord) (i : String)
    (hdup : 2 ≤ ((competencyDatabase cv).filter (fun c => c.id.getD "" == i)).length) :
    (∃ c : CompetencyRecord,
        (competencyDatabase cv).reverse.find? (fun c => c.id.getD "" == i) = some c
      ∧ comp_lookup (competencyDatabase cv) i
          = some ⟨c.name.getD "", c.categoryId.getD ""⟩
      ∧ (i ∈ selectedIds cv →
          (⟨c.name.getD "",
            (category_lookup (competencyCategories cv) (c.categoryId.getD "")).getD ""⟩
            : CompetencyEntry) ∈ extract_competencies_data cv))
  ∧ ∀ j : String,
      2 ≤ ((competencyCategories cv).filter (fun c => c.id.getD "" == j)).length →
      ∃ k : CategoryRecord,
        (competencyCategories cv).reverse.find? (fun c => c.id.getD "" == j) = some k
      ∧ category_lookup (competencyCategories cv) j = some (k.name.getD "") := by
  constructor
  · have hne : (competencyDatabase cv).filter (fun c => c.id.getD "" == i) ≠ [] := by
      intro hnil
      rw [hnil] at hdup
      simp at hdup
    obtain ⟨x, hx⟩ := List.exists_mem_of_ne_nil _ hne
    obtain ⟨hxmem, hxp⟩ := List.mem_filter.mp hx
    have hsome : ((competencyDatabase cv).reverse.find?
        (fun c => c.id.getD "" == i)).isSome :=
      List.find?_isSome.mpr ⟨x, List.mem_reverse.mpr hxmem, hxp⟩
    obtain ⟨c, hc⟩ := Option.isSome_iff_exists.mp hsome
    refine ⟨c, hc, ?_, ?_⟩
    · rw [comp_lookup_eq_revFind, hc]
      rfl
    · intro hi
      simp only [extract_competencies_data]
      apply List.mem_filterMap.mpr
      refine ⟨i, hi, ?_⟩
      rw [comp_lookup_eq_revFind, hc]
      rfl
  · intro j hjdup
    have hne : (competencyCategories cv).filter (fun c => c.id.getD "" == j) ≠ [] := by
      intro hnil
      rw [hnil] at hjdup
      simp at hjdup
    obtain ⟨x, hx⟩ := List.exists_mem_of_ne_nil _ hne
    obtain ⟨hxmem, hxp⟩ := List.mem_filter.mp hx
    have hsome : ((competencyCategories cv).reverse.find?
        (fun c => c.id.getD "" == j)).isSome :=
      List.find?_isSome.mpr ⟨x, List.mem_reverse.mpr hxmem, hxp⟩
    obtain ⟨k, hk⟩ := Option.isSome_iff_exists.mp hsome
    refine ⟨k, hk, ?_⟩
    rw [category_lookup_eq_revFind, hk]
    rfl

/-- C10 witness: in `dupCompMaster` the id `a` resolves to the second
record `Second` and the duplicate category id `c2` to the second category
name `TierB`. -/
theorem extract_competencies_duplicate_last_witness :
    comp_lookup (competencyDatabase dupCompMaster) "a"
      = some ⟨"Second", "c2"⟩
  ∧ category_lookup (competencyCategories dupCompMaster) "c2" = some "TierB"
  ∧ CompetencyEntry.mk "Second" "TierB" ∈ extract_competencies_data dupCompMaster := by
  obtain ⟨⟨c, hfind, hlook, hmem⟩, hcats⟩ :=
    extract_competencies_duplicate_last dupCompMaster "a" (by decide)
  obtain ⟨k, hkfind, hklook⟩ := hcats "c2" (by decide)
  have hceq : (some c : Option CompetencyRecord)
      = some ⟨some "a", some "Second", some "c2"⟩ := by
    rw [← hfind]
    decide
  have hkeq : (some k : Option CategoryRecord) = some ⟨some "c2", some "TierB"⟩ := by
    rw [← hkfind]
    decide
  obtain rfl : c = ⟨some "a", some "Second", some "c2"⟩ := Option.some_inj.mp hceq
  obtain rfl : k = ⟨some "c2", some "TierB"⟩ := Option.some_inj.mp hkeq
  refine ⟨hlook, hklook, ?_⟩
  have hentry :
      (⟨(some "Second" : Option String).getD "",
        (category_lookup (competencyCategories dupCompMaster)
          ((some "c2" : Option String).getD "")).getD ""⟩ : CompetencyEntry)
        = ⟨"Second", "TierB"⟩ := by
    decide
  have hm := hmem (by decide)
  exact hentry ▸ hm

/-- C5 (amended): a supplied profile resolving to `showSection = false`
forces `earlier_experiences = []` and mode `"hidden"` regardless of
`defaultMode`; `showSection = true` passes the full earlier-work sequence
through with mode `defaultMode`; with no profile the earlier-experience
fields equal those of the `showSection = true, defaultMode = "detailed"`
behaviour, and the whole context agrees with the one produced by such a
profile except for the profile metadata fields `profile_name` /
`profile_id`, which are present only when a profile is supplied. -/
theorem prepare_context_earlier_visibility (cv : MasterRecord) (d : DocHandle)
    (p : Profile) :
    ((get_earlier_experience_settings p).showSection = false →
        (prepare_template_context cv d (some p)).earlier_experiences = []
      ∧ (prepare_template_context cv d (some p)).earlier_experience_mode = "hidden")
  ∧ ((get_earlier_experience_settings p).showSection = true →
        (prepare_template_context cv d (some p)).earlier_experiences
          = (extract_work_data cv).2
      ∧ (prepare_template_context cv d (some p)).earlier_experience_mode
          = (get_earlier_experience_settings p).defaultMode)
  ∧ (prepare_template_context cv d none).earlier_experiences
      = (extract_work_data cv).2
  ∧ (prepare_template_context cv d none).earlier_experience_mode = "detailed"
  ∧ (get_earlier_experience_settings p = ⟨true, "detailed"⟩ →
      prepare_template_context cv d none
        = { prepare_template_context cv d (some p) with
            profile_name := none, profile_id := none }) := by
  refine ⟨?_, ?_, rfl, rfl, ?_⟩
  · intro hs
    constructor <;> simp [prepare_template_context, hs]
  · intro hs
    constructor <;> simp [prepare_template_context, hs]
  · intro hset
    simp [prepare_template_context, hset]

/-- C5 counterexample: for a (truthy) profile resolving to
`showSection = true, defaultMode = "detailed"`, the no-profile context is
not equal to the with-profile context — the with-profile one carries the
profile metadata fields. -/
theorem prepare_context_no_profile_counterexample :
    get_earlier_experience_settings ⟨some "X", some "p1", none⟩ = ⟨true, "detailed"⟩
  ∧ prepare_template_context emptyMaster aDoc (some ⟨some "X", some "p1", none⟩)
      ≠ prepare_template_context emptyMaster aDoc none := by
  constructor
  · rfl
  · decide

/-- C5 witness: concrete instances of the amended claim — the hidden
profile empties the section, and the all-default profile differs from the
no-profile context only in the metadata fields. -/
theorem prepare_context_earlier_visibility_witness :
    (prepare_template_context emptyMaster aDoc (some hiddenProfile)).earlier_experiences
      = []
  ∧ (prepare_template_context emptyMaster aDoc (some hiddenProfile)).earlier_experience_mode
      = "hidden"
  ∧ prepare_template_context emptyMaster aDoc none
      = { prepare_template_context emptyMaster aDoc (some plainProfile) with
          profile_name := none, profile_id := none } := by
  obtain ⟨hhid, _, _, _, _⟩ :=
    prepare_context_earlier_visibility emptyMaster aDoc hiddenProfile
  obtain ⟨_, _, _, _, hdef⟩ :=
    prepare_context_earlier_visibility emptyMaster aDoc plainProfile
  exact ⟨(hhid rfl).1, (hhid rfl).2, hdef rfl⟩

/-- C6: a non-empty extracted email is replaced in the context by a
rich-text hyperlink whose target is the `"mailto:"`-prefixed address; a
non-empty LinkedIn URL by a hyperlink targeting the URL as-is; empty
strings stay the empty string, untouched by the hyperlink builder. -/
theorem prepare_context_hyperlinks (cv : MasterRecord) (d : DocHandle)
    (p : Option Profile) :
    ((extract_header_data cv).email ≠ "" →
        (prepare_template_context cv d p).email
          = StrOrLink.rich (create_email_hyperlink d (extract_header_data cv).email)
      ∧ (create_email_hyperlink d (extract_header_data cv).email).target
          = "mailto:" ++ (extract_header_data cv).email)
  ∧ ((extract_header_data cv).email = "" →
      (prepare_template_context cv d p).email = StrOrLink.str "")
  ∧ ((extract_header_data cv).linkedin_url ≠ "" →
        (prepare_template_context cv d p).linkedin_url
          = StrOrLink.rich
              (create_url_hyperlink d (extract_header_data cv).linkedin_url)
      ∧ (create_url_hyperlink d (extract_header_data cv).linkedin_url).target
          = (extract_header_data cv).linkedin_url)
  ∧ ((extract_header_data cv).linkedin_url = "" →
      (prepare_template_context cv d p).linkedin_url = StrOrLink.str "") := by
  refine ⟨?_, ?_, ?_, ?_⟩
  · intro h
    exact ⟨by simp [prepare_template_context, h], rfl⟩
  · intro h
    simp [prepare_template_context, h]
  · intro h
    exact ⟨by simp [prepare_template_context, h], rfl⟩
  · intro h
    simp [prepare_template_context, h]

/-- C6 witness: the sample record's email and LinkedIn URL become
hyperlink objects, while the fully sparse record keeps empty strings. -/
theorem prepare_context_hyperlinks_witness :
    (prepare_template_context sampleHeaderMaster aDoc none).email
      = StrOrLink.rich ⟨"a@b.c", "mailto:a@b.c", "Hyperlink"⟩
  ∧ (prepare_template_context sampleHeaderMaster aDoc none).linkedin_url
      = StrOrLink.rich ⟨"https://x", "https://x", "Hyperlink"⟩
  ∧ (prepare_template_context emptyMaster aDoc none).email = StrOrLink.str ""
  ∧ (prepare_template_context emptyMaster aDoc none).linkedin_url
      = StrOrLink.str "" := by
  obtain ⟨h1, _, h3, _⟩ := prepare_context_hyperlinks sampleHeaderMaster aDoc none
  obtain ⟨_, g2, _, g4⟩ := prepare_context_hyperlinks emptyMaster aDoc none
  refine ⟨?_, ?_, g2 rfl, g4 rfl⟩
  · have h := (h1 (by decide)).1
    rw [show (extract_header_data sampleHeaderMaster).email = "a@b.c" from by decide] at h
    rw [show create_email_hyperlink aDoc "a@b.c"
        = ⟨"a@b.c", "mailto:a@b.c", "Hyperlink"⟩ from by decide] at h
    exact h
  · have h := (h3 (by decide)).1
    rw [show (extract_header_data sampleHeaderMaster).linkedin_url = "https://x"
        from by decide] at h
    rw [show create_url_hyperlink aDoc "https://x"
        = ⟨"https://x", "https://x", "Hyperlink"⟩ from by decide] at h
    exact h
